import Mathlib

/-!
Shallow embedding of the group HTTP handler layer
(`internal/handlers/group/group.go` of iamNilotpal/go-okta-iam).

The handler file is embedded faithfully: each of the eight exported
handler methods becomes a Lean function from the handler state and the
incoming request to an outcome recording the HTTP response written, the
service call performed (if any), whether the body was decoded, the log
entries emitted, and the post-state of the handler.

Collaborators that are not part of the given source tree
(`internal/models`, `internal/services/group`, `pkg/response`) are
modelled from the spec, as marked on each definition.  JSON decoding of
request bodies follows the documented semantics of Go `encoding/json`
when decoding into a struct with a single string field tagged `name`:
keys are matched case-insensitively (`strings.EqualFold`), a JSON
`null` for a field or for the whole struct is a no-op, and any other
shape mismatch is an unmarshalling error.
-/

namespace GroupApi

/-- Modelled from the spec: `internal/models` is missing from `src/`;
the spec describes a Group as a record "with at least an identifier and
a name, as returned by the service". -/
structure Group where
  id : String
  name : String
deriving DecidableEq, Repr

/-- Modelled from the spec: `internal/models` is missing from `src/`;
a GroupMember is an "opaque record representing a user's membership in
a group". We give it an identifier so lists of members are nontrivial. -/
structure GroupMember where
  userID : String
deriving DecidableEq, Repr

/-- Modelled from the spec: `internal/models` is missing from `src/`;
`CreateGroupRequest` is a request payload "with a `Name` field (at
minimum), decoded from the request body" (JSON key `name`, per the
spec scenario body `\x7b"name":"Engineering"\x7d`). -/
structure CreateGroupRequest where
  name : String
deriving DecidableEq, Repr

/-- Modelled from the spec: `internal/models` is missing from `src/`;
`UpdateGroupRequest` is a request payload with a `Name` field at
minimum, decoded from the request body. -/
structure UpdateGroupRequest where
  name : String
deriving DecidableEq, Repr

/-- A JSON value, for modelling request bodies. -/
inductive Json where
  | null : Json
  | bool (b : Bool) : Json
  | num (n : Int) : Json
  | str (s : String) : Json
  | arr (elems : List Json) : Json
  | obj (fields : List (String × Json)) : Json

/-- The raw request body as seen by `json.NewDecoder(r.Body).Decode`:
either bytes that are not syntactically valid JSON (including an empty
body), or bytes parsing to a first JSON value `v`. -/
inductive Body where
  | malformed : Body
  | json (v : Json) : Body

/-- ASCII case folding, modelling the `strings.EqualFold` comparison Go
`encoding/json` uses to match object keys against struct field tags
(the one tag here, `name`, is ASCII). -/
def asciiLower (s : String) : String :=
  String.mk (s.data.map Char.toLower)

/-- One step of Go `encoding/json` struct decoding for a struct whose
only field is a string tagged `name`: keys are matched
case-insensitively; a matching key sets the field from a string value,
is a documented no-op on a JSON `null` value (the field keeps its
current value, no error), and fails on any other value; a
non-matching key is ignored. -/
def setNameField (cur : String) (k : String) (v : Json) : Except String String :=
  if asciiLower k = "name" then
    match v with
    | Json.str s => Except.ok s
    | Json.null => Except.ok cur
    | _ => Except.error "cannot unmarshal value into field of type string"
  else
    Except.ok cur

/-- Go `encoding/json` decoding of a JSON value into a struct with a
single string field tagged `name`: `null` leaves the zero value, an
object folds its key/value pairs over the zero value (later duplicate
keys win, unknown keys ignored, a `null` field value is a no-op), and
any other top-level value is a type mismatch. -/
def decodeNameStruct : Json → Except String String
  | Json.null => Except.ok ""
  | Json.obj fields =>
      fields.foldlM (fun cur kv => setNameField cur kv.1 kv.2) ""
  | _ => Except.error "cannot unmarshal value into struct"

/-- `json.NewDecoder(r.Body).Decode(&req)` for `models.CreateGroupRequest`. -/
def decodeCreateGroupRequest (b : Body) : Except String CreateGroupRequest :=
  match b with
  | Body.malformed => Except.error "invalid JSON"
  | Body.json v => (decodeNameStruct v).map (fun s => { name := s })

/-- `json.NewDecoder(r.Body).Decode(&req)` for `models.UpdateGroupRequest`. -/
def decodeUpdateGroupRequest (b : Body) : Except String UpdateGroupRequest :=
  match b with
  | Body.malformed => Except.error "invalid JSON"
  | Body.json v => (decodeNameStruct v).map (fun s => { name := s })

/-- The data payload handed to the response writer: the handler passes
a group, a list of groups, a list of members, or Go `nil`. -/
inductive Payload where
  | null : Payload
  | group (g : Group) : Payload
  | groups (gs : List Group) : Payload
  | members (ms : List GroupMember) : Payload
deriving DecidableEq, Repr

/-- Modelled from the spec: `pkg/response` is missing from `src/`; the
spec gives the success envelope `\x7b status, message, data \x7d` (with
`status:"success"` in the worked scenario) and the error envelope
`\x7b status, code, message, details \x7d`. The spec does not fix the
error envelope's `status` string; we write it as `"error"`. -/
inductive Envelope where
  | success (status : String) (message : String) (data : Payload) : Envelope
  | error (status : String) (code : String) (message : String)
      (details : Option String) : Envelope
deriving DecidableEq, Repr

/-- The HTTP response written to the `http.ResponseWriter`: a status
code and the serialized envelope. -/
structure HttpResponse where
  statusCode : Nat
  envelope : Envelope
deriving DecidableEq, Repr

/-- Modelled from the spec: `pkg/response.RespondSuccess` is missing
from `src/`; it writes the given status code and a success envelope
with the given message and data. -/
def RespondSuccess (statusCode : Nat) (message : String) (data : Payload) :
    HttpResponse :=
  { statusCode := statusCode, envelope := Envelope.success "success" message data }

/-- Modelled from the spec: `pkg/response.RespondError` is missing from
`src/`; it writes the given status code and an error envelope with the
given code, message and details. -/
def RespondError (statusCode : Nat) (code : String) (message : String)
    (details : Option String) : HttpResponse :=
  { statusCode := statusCode
    envelope := Envelope.error "error" code message details }

/-- Modelled from the spec: the `*group_service.Service` collaborator is
missing from `src/`; per the spec it is "a service object exposing
`CreateGroup`, `GetGroups`, `GetGroup`, `UpdateGroup`, `DeleteGroup`,
`GetGroupMembers`, `AddUserToGroup`, `RemoveUserFromGroup`, each
accepting a cancellable context and returning a result plus an error
indicator". Errors carry their message content, so that independence of
responses from error content is expressible. -/
structure Service where
  createGroup : CreateGroupRequest → Except String Group
  getGroups : Except String (List Group)
  getGroup : String → Except String Group
  updateGroup : String → UpdateGroupRequest → Except String Group
  deleteGroup : String → Except String Unit
  getGroupMembers : String → Except String (List GroupMember)
  addUserToGroup : String → String → Except String Unit
  removeUserFromGroup : String → String → Except String Unit

/-- The handler state: the two constructor-injected fields of
`Handler` (`log` and `groupsSvc`). The logger is represented by an
opaque sink identifier; entries written through it are recorded in the
invocation outcome, not in the handler. -/
structure Handler where
  log : String
  groupsSvc : Service

/-- The inputs an invocation reads from `*http.Request`: the two chi
URL parameters (empty string when absent from the route) and the body. -/
structure Request where
  groupID : String
  userID : String
  body : Body

/-- A record of which service method an invocation called, with the
exact arguments forwarded. -/
inductive SvcCall where
  | createGroup (req : CreateGroupRequest) : SvcCall
  | getGroups : SvcCall
  | getGroup (groupID : String) : SvcCall
  | updateGroup (groupID : String) (req : UpdateGroupRequest) : SvcCall
  | deleteGroup (groupID : String) : SvcCall
  | getGroupMembers (groupID : String) : SvcCall
  | addUserToGroup (groupID : String) (userID : String) : SvcCall
  | removeUserFromGroup (groupID : String) (userID : String) : SvcCall
deriving DecidableEq, Repr

/-- A log entry emitted via `h.log.Infow`: the message and, when the
call passed `zap.Error(err)`, the underlying error detail. -/
structure LogEntry where
  msg : String
  errDetail : Option String
deriving DecidableEq, Repr

/-- Everything observable about one handler invocation: the HTTP
response written, the service call performed (if any), whether the
request body was decoded, the log entries emitted, and the handler
state after the invocation. -/
structure HandlerOutcome where
  response : HttpResponse
  svcCall : Option SvcCall
  bodyDecoded : Bool
  logs : List LogEntry
  postState : Handler

/-- `Handler.respondWithError`: delegates to `response.RespondError`
with code `"API_ERROR"` and `nil` details. -/
def Handler.respondWithError (message : String) (statusCode : Nat) : HttpResponse :=
  RespondError statusCode "API_ERROR" message none

/-- `Handler.CreateGroup`. -/
def Handler.CreateGroup (h : Handler) (r : Request) : HandlerOutcome :=
  let l0 : List LogEntry := [{ msg := "Create group request received", errDetail := none }]
  match decodeCreateGroupRequest r.body with
  | Except.error e =>
      { response := Handler.respondWithError "Invalid request body" 400
        svcCall := none
        bodyDecoded := true
        logs := l0 ++ [{ msg := "Failed to decode create group request", errDetail := some e }]
        postState := h }
  | Except.ok req =>
      match h.groupsSvc.createGroup req with
      | Except.error e =>
          { response := Handler.respondWithError "Failed to create group" 500
            svcCall := some (SvcCall.createGroup req)
            bodyDecoded := true
            logs := l0 ++ [{ msg := "Failed to create group", errDetail := some e }]
            postState := h }
      | Except.ok group =>
          { response := RespondSuccess 201
              ("Group '" ++ group.name ++ "' created successfully")
              (Payload.group group)
            svcCall := some (SvcCall.createGroup req)
            bodyDecoded := true
            logs := l0 ++ [{ msg := "Group created successfully", errDetail := none }]
            postState := h }

/-- `Handler.GetGroups`. -/
def Handler.GetGroups (h : Handler) (_r : Request) : HandlerOutcome :=
  let l0 : List LogEntry := [{ msg := "Get groups request received", errDetail := none }]
  match h.groupsSvc.getGroups with
  | Except.error e =>
      { response := Handler.respondWithError "Failed to retrieve groups" 500
        svcCall := some SvcCall.getGroups
        bodyDecoded := false
        logs := l0 ++ [{ msg := "Failed to get groups", errDetail := some e }]
        postState := h }
  | Except.ok groups =>
      { response := RespondSuccess 200 "Success" (Payload.groups groups)
        svcCall := some SvcCall.getGroups
        bodyDecoded := false
        logs := l0 ++ [{ msg := "Groups retrieved successfully", errDetail := none }]
        postState := h }

/-- `Handler.GetGroup`. -/
def Handler.GetGroup (h : Handler) (r : Request) : HandlerOutcome :=
  if r.groupID = "" then
    { response := Handler.respondWithError "Group ID is required" 400
      svcCall := none
      bodyDecoded := false
      logs := []
      postState := h }
  else
    let l0 : List LogEntry := [{ msg := "Get group request received", errDetail := none }]
    match h.groupsSvc.getGroup r.groupID with
    | Except.error e =>
        { response := Handler.respondWithError "Failed to retrieve group" 500
          svcCall := some (SvcCall.getGroup r.groupID)
          bodyDecoded := false
          logs := l0 ++ [{ msg := "Failed to get group", errDetail := some e }]
          postState := h }
    | Except.ok group =>
        { response := RespondSuccess 200 "Success" (Payload.group group)
          svcCall := some (SvcCall.getGroup r.groupID)
          bodyDecoded := false
          logs := l0 ++ [{ msg := "Group retrieved successfully", errDetail := none }]
          postState := h }

/-- `Handler.UpdateGroup`. -/
def Handler.UpdateGroup (h : Handler) (r : Request) : HandlerOutcome :=
  if r.groupID = "" then
    { response := Handler.respondWithError "Group ID is required" 400
      svcCall := none
      bodyDecoded := false
      logs := []
      postState := h }
  else
    let l0 : List LogEntry := [{ msg := "Update group request received", errDetail := none }]
    match decodeUpdateGroupRequest r.body with
    | Except.error e =>
        { response := Handler.respondWithError "Invalid request body" 400
          svcCall := none
          bodyDecoded := true
          logs := l0 ++ [{ msg := "Failed to decode update group request", errDetail := some e }]
          postState := h }
    | Except.ok req =>
        match h.groupsSvc.updateGroup r.groupID req with
        | Except.error e =>
            { response := Handler.respondWithError "Failed to update group" 500
              svcCall := some (SvcCall.updateGroup r.groupID req)
              bodyDecoded := true
              logs := l0 ++ [{ msg := "Failed to update group", errDetail := some e }]
              postState := h }
        | Except.ok group =>
            { response := RespondSuccess 200 "Group updated successfully"
                (Payload.group group)
              svcCall := some (SvcCall.updateGroup r.groupID req)
              bodyDecoded := true
              logs := l0 ++ [{ msg := "Group updated successfully", errDetail := none }]
              postState := h }

/-- `Handler.DeleteGroup`. -/
def Handler.DeleteGroup (h : Handler) (r : Request) : HandlerOutcome :=
  if r.groupID = "" then
    { response := Handler.respondWithError "Group ID is required" 400
      svcCall := none
      bodyDecoded := false
      logs := []
      postState := h }
  else
    let l0 : List LogEntry := [{ msg := "Delete group request received", errDetail := none }]
    match h.groupsSvc.deleteGroup r.groupID with
    | Except.error e =>
        { response := Handler.respondWithError "Failed to delete group" 500
          svcCall := some (SvcCall.deleteGroup r.groupID)
          bodyDecoded := false
          logs := l0 ++ [{ msg := "Failed to delete group", errDetail := some e }]
          postState := h }
    | Except.ok _ =>
        { response := RespondSuccess 200 "Group deleted successfully" Payload.null
          svcCall := some (SvcCall.deleteGroup r.groupID)
          bodyDecoded := false
          logs := l0 ++ [{ msg := "Group deleted successfully", errDetail := none }]
          postState := h }

/-- `Handler.GetGroupMembers`. -/
def Handler.GetGroupMembers (h : Handler) (r : Request) : HandlerOutcome :=
  if r.groupID = "" then
    { response := Handler.respondWithError "Group ID is required" 400
      svcCall := none
      bodyDecoded := false
      logs := []
      postState := h }
  else
    let l0 : List LogEntry := [{ msg := "Get group members request received", errDetail := none }]
    match h.groupsSvc.getGroupMembers r.groupID with
    | Except.error e =>
        { response := Handler.respondWithError "Failed to retrieve group members" 500
          svcCall := some (SvcCall.getGroupMembers r.groupID)
          bodyDecoded := false
          logs := l0 ++ [{ msg := "Failed to get group members", errDetail := some e }]
          postState := h }
    | Except.ok members =>
        { response := RespondSuccess 200 "Success" (Payload.members members)
          svcCall := some (SvcCall.getGroupMembers r.groupID)
          bodyDecoded := false
          logs := l0 ++ [{ msg := "Group members retrieved successfully", errDetail := none }]
          postState := h }

/-- `Handler.AddUserToGroup`. -/
def Handler.AddUserToGroup (h : Handler) (r : Request) : HandlerOutcome :=
  if r.groupID = "" ∨ r.userID = "" then
    { response := Handler.respondWithError "Both Group ID and User ID are required" 400
      svcCall := none
      bodyDecoded := false
      logs := []
      postState := h }
  else
    let l0 : List LogEntry := [{ msg := "Add user to group request received", errDetail := none }]
    match h.groupsSvc.addUserToGroup r.groupID r.userID with
    | Except.error e =>
        { response := Handler.respondWithError "Failed to add user to group" 500
          svcCall := some (SvcCall.addUserToGroup r.groupID r.userID)
          bodyDecoded := false
          logs := l0 ++ [{ msg := "Failed to add user to group", errDetail := some e }]
          postState := h }
    | Except.ok _ =>
        { response := RespondSuccess 200 "User added to group successfully" Payload.null
          svcCall := some (SvcCall.addUserToGroup r.groupID r.userID)
          bodyDecoded := false
          logs := l0 ++ [{ msg := "User added to group successfully", errDetail := none }]
          postState := h }

/-- `Handler.RemoveUserFromGroup`. -/
def Handler.RemoveUserFromGroup (h : Handler) (r : Request) : HandlerOutcome :=
  if r.groupID = "" ∨ r.userID = "" then
    { response := Handler.respondWithError "Both Group ID and User ID are required" 400
      svcCall := none
      bodyDecoded := false
      logs := []
      postState := h }
  else
    let l0 : List LogEntry := [{ msg := "Remove user from group request received", errDetail := none }]
    match h.groupsSvc.removeUserFromGroup r.groupID r.userID with
    | Except.error e =>
        { response := Handler.respondWithError "Failed to remove user from group" 500
          svcCall := some (SvcCall.removeUserFromGroup r.groupID r.userID)
          bodyDecoded := false
          logs := l0 ++ [{ msg := "Failed to remove user from group", errDetail := some e }]
          postState := h }
    | Except.ok _ =>
        { response := RespondSuccess 200 "User removed from group successfully" Payload.null
          svcCall := some (SvcCall.removeUserFromGroup r.groupID r.userID)
          bodyDecoded := false
          logs := l0 ++ [{ msg := "User removed from group successfully", errDetail := none }]
          postState := h }

/-! Concrete fixtures used by witness and counterexample theorems. -/

/-- A service on which every operation succeeds; `CreateGroup` and
`UpdateGroup` echo the requested name, matching the spec scenario
(`name "Engineering"` → group `id "g1", name "Engineering"`). -/
def svcOk : Service where
  createGroup := fun req => Except.ok { id := "g1", name := req.name }
  getGroups := Except.ok [{ id := "g1", name := "Engineering" }]
  getGroup := fun gid => Except.ok { id := gid, name := "Engineering" }
  updateGroup := fun gid req => Except.ok { id := gid, name := req.name }
  deleteGroup := fun _ => Except.ok ()
  getGroupMembers := fun _ => Except.ok [{ userID := "u1" }]
  addUserToGroup := fun _ _ => Except.ok ()
  removeUserFromGroup := fun _ _ => Except.ok ()

/-- A service on which every operation fails, with one error message. -/
def svcErrA : Service where
  createGroup := fun _ => Except.error "okta: connection refused"
  getGroups := Except.error "okta: connection refused"
  getGroup := fun _ => Except.error "okta: connection refused"
  updateGroup := fun _ _ => Except.error "okta: connection refused"
  deleteGroup := fun _ => Except.error "okta: connection refused"
  getGroupMembers := fun _ => Except.error "okta: connection refused"
  addUserToGroup := fun _ _ => Except.error "okta: connection refused"
  removeUserFromGroup := fun _ _ => Except.error "okta: connection refused"

/-- A service on which every operation fails, with a different message. -/
def svcErrB : Service where
  createGroup := fun _ => Except.error "group already exists"
  getGroups := Except.error "group already exists"
  getGroup := fun _ => Except.error "group already exists"
  updateGroup := fun _ _ => Except.error "group already exists"
  deleteGroup := fun _ => Except.error "group already exists"
  getGroupMembers := fun _ => Except.error "group already exists"
  addUserToGroup := fun _ _ => Except.error "group already exists"
  removeUserFromGroup := fun _ _ => Except.error "group already exists"

/-- Handler wired to the all-success service. -/
def hOk : Handler := { log := "sugaredLogger", groupsSvc := svcOk }

/-- Handler wired to the first all-failure service. -/
def hErrA : Handler := { log := "sugaredLogger", groupsSvc := svcErrA }

/-- Handler wired to the second all-failure service. -/
def hErrB : Handler := { log := "sugaredLogger", groupsSvc := svcErrB }

/-- The spec-scenario request: both path parameters present and body
`\x7b"name":"Engineering"\x7d`. -/
def rEng : Request :=
  { groupID := "g1", userID := "u1"
    body := Body.json (Json.obj [("name", Json.str "Engineering")]) }

/-- A request with both path parameters present and a body that is not
valid JSON. -/
def rBadBody : Request := { groupID := "g1", userID := "u1", body := Body.malformed }

/-- A request with an empty `groupID` and a body that is not valid JSON. -/
def rNoIdBadBody : Request := { groupID := "", userID := "u1", body := Body.malformed }

/-- A request whose body is the syntactically valid JSON value `42`. -/
def rNum : Request :=
  { groupID := "g1", userID := "u1", body := Body.json (Json.num 42) }

/-! Claim theorems. -/

/-- C1: whenever the service call succeeds, each handler responds with
the documented success status (201 for CreateGroup, 200 otherwise) and
a success envelope whose data payload is the service's value verbatim
(group, group list, member list, or no payload for the three
payload-free operations); CreateGroup's message interpolates the name
of the group returned by the service. -/
theorem c1_success_envelopes (h : Handler) (r : Request) :
    (∀ req g, decodeCreateGroupRequest r.body = Except.ok req →
       h.groupsSvc.createGroup req = Except.ok g →
       (Handler.CreateGroup h r).response =
         RespondSuccess 201 ("Group '" ++ g.name ++ "' created successfully")
           (Payload.group g))
    ∧ (∀ gs, h.groupsSvc.getGroups = Except.ok gs →
       (Handler.GetGroups h r).response =
         RespondSuccess 200 "Success" (Payload.groups gs))
    ∧ (∀ g, r.groupID ≠ "" → h.groupsSvc.getGroup r.groupID = Except.ok g →
       (Handler.GetGroup h r).response =
         RespondSuccess 200 "Success" (Payload.group g))
    ∧ (∀ req g, r.groupID ≠ "" → decodeUpdateGroupRequest r.body = Except.ok req →
       h.groupsSvc.updateGroup r.groupID req = Except.ok g →
       (Handler.UpdateGroup h r).response =
         RespondSuccess 200 "Group updated successfully" (Payload.group g))
    ∧ (r.groupID ≠ "" → h.groupsSvc.deleteGroup r.groupID = Except.ok () →
       (Handler.DeleteGroup h r).response =
         RespondSuccess 200 "Group deleted successfully" Payload.null)
    ∧ (∀ ms, r.groupID ≠ "" → h.groupsSvc.getGroupMembers r.groupID = Except.ok ms →
       (Handler.GetGroupMembers h r).response =
         RespondSuccess 200 "Success" (Payload.members ms))
    ∧ (r.groupID ≠ "" → r.userID ≠ "" →
       h.groupsSvc.addUserToGroup r.groupID r.userID = Except.ok () →
       (Handler.AddUserToGroup h r).response =
         RespondSuccess 200 "User added to group successfully" Payload.null)
    ∧ (r.groupID ≠ "" → r.userID ≠ "" →
       h.groupsSvc.removeUserFromGroup r.groupID r.userID = Except.ok () →
       (Handler.RemoveUserFromGroup h r).response =
         RespondSuccess 200 "User removed from group successfully" Payload.null) := by
  refine ⟨?_, ?_, ?_, ?_, ?_, ?_, ?_, ?_⟩
  · intro req g hdec hsvc
    simp [Handler.CreateGroup, hdec, hsvc]
  · intro gs hsvc
    simp [Handler.GetGroups, hsvc]
  · intro g hne hsvc
    simp [Handler.GetGroup, hne, hsvc]
  · intro req g hne hdec hsvc
    simp [Handler.UpdateGroup, hne, hdec, hsvc]
  · intro hne hsvc
    simp [Handler.DeleteGroup, hne, hsvc]
  · intro ms hne hsvc
    simp [Handler.GetGroupMembers, hne, hsvc]
  · intro hg hu hsvc
    simp [Handler.AddUserToGroup, hg, hu, hsvc]
  · intro hg hu hsvc
    simp [Handler.RemoveUserFromGroup, hg, hu, hsvc]

/-- C1 witness: the spec scenario. On the all-success service,
`POST /groups` with body name `"Engineering"` yields 201 and the
envelope message about group `Engineering`, with the service's group as
the data payload. -/
theorem c1_success_envelopes_witness :
    (Handler.CreateGroup hOk rEng).response =
      RespondSuccess 201 "Group 'Engineering' created successfully"
        (Payload.group { id := "g1", name := "Engineering" }) :=
  (c1_success_envelopes hOk rEng).1 { name := "Engineering" }
    { id := "g1", name := "Engineering" } rfl rfl

/-- C2: whenever the service call fails, each handler responds with
status 500 and an error envelope with the fixed operation-specific
message and `nil` details (in particular "Failed to delete group" for
DeleteGroup). -/
theorem c2_service_error_responses (h : Handler) (r : Request) :
    (∀ req e, decodeCreateGroupRequest r.body = Except.ok req →
       h.groupsSvc.createGroup req = Except.error e →
       (Handler.CreateGroup h r).response =
         RespondError 500 "API_ERROR" "Failed to create group" none)
    ∧ (∀ e, h.groupsSvc.getGroups = Except.error e →
       (Handler.GetGroups h r).response =
         RespondError 500 "API_ERROR" "Failed to retrieve groups" none)
    ∧ (∀ e, r.groupID ≠ "" → h.groupsSvc.getGroup r.groupID = Except.error e →
       (Handler.GetGroup h r).response =
         RespondError 500 "API_ERROR" "Failed to retrieve group" none)
    ∧ (∀ req e, r.groupID ≠ "" → decodeUpdateGroupRequest r.body = Except.ok req →
       h.groupsSvc.updateGroup r.groupID req = Except.error e →
       (Handler.UpdateGroup h r).response =
         RespondError 500 "API_ERROR" "Failed to update group" none)
    ∧ (∀ e, r.groupID ≠ "" → h.groupsSvc.deleteGroup r.groupID = Except.error e →
       (Handler.DeleteGroup h r).response =
         RespondError 500 "API_ERROR" "Failed to delete group" none)
    ∧ (∀ e, r.groupID ≠ "" → h.groupsSvc.getGroupMembers r.groupID = Except.error e →
       (Handler.GetGroupMembers h r).response =
         RespondError 500 "API_ERROR" "Failed to retrieve group members" none)
    ∧ (∀ e, r.groupID ≠ "" → r.userID ≠ "" →
       h.groupsSvc.addUserToGroup r.groupID r.userID = Except.error e →
       (Handler.AddUserToGroup h r).response =
         RespondError 500 "API_ERROR" "Failed to add user to group" none)
    ∧ (∀ e, r.groupID ≠ "" → r.userID ≠ "" →
       h.groupsSvc.removeUserFromGroup r.groupID r.userID = Except.error e →
       (Handler.RemoveUserFromGroup h r).response =
         RespondError 500 "API_ERROR" "Failed to remove user from group" none) := by
  refine ⟨?_, ?_, ?_, ?_, ?_, ?_, ?_, ?_⟩
  · intro req e hdec hsvc
    simp [Handler.CreateGroup, hdec, hsvc, Handler.respondWithError]
  · intro e hsvc
    simp [Handler.GetGroups, hsvc, Handler.respondWithError]
  · intro e hne hsvc
    simp [Handler.GetGroup, hne, hsvc, Handler.respondWithError]
  · intro req e hne hdec hsvc
    simp [Handler.UpdateGroup, hne, hdec, hsvc, Handler.respondWithError]
  · intro e hne hsvc
    simp [Handler.DeleteGroup, hne, hsvc, Handler.respondWithError]
  · intro e hne hsvc
    simp [Handler.GetGroupMembers, hne, hsvc, Handler.respondWithError]
  · intro e hg hu hsvc
    simp [Handler.AddUserToGroup, hg, hu, hsvc, Handler.respondWithError]
  · intro e hg hu hsvc
    simp [Handler.RemoveUserFromGroup, hg, hu, hsvc, Handler.respondWithError]

/-- C2 witness: the spec scenario `DELETE /groups/g1` with a failing
service yields 500, message "Failed to delete group". -/
theorem c2_service_error_responses_witness :
    (Handler.DeleteGroup hErrA rEng).response =
      RespondError 500 "API_ERROR" "Failed to delete group" none :=
  (c2_service_error_responses hErrA rEng).2.2.2.2.1 "okta: connection refused"
    (by decide) rfl

/-- C3 counterexample: an UpdateGroup invocation whose body fails JSON
decoding but whose `groupID` is empty answers 400 "Group ID is
required", not "Invalid request body" as the claim states for every
invocation whose body fails decoding. -/
theorem c3_counterexample :
    (∃ e, decodeUpdateGroupRequest rNoIdBadBody.body = Except.error e)
    ∧ (Handler.UpdateGroup hOk rNoIdBadBody).response =
        RespondError 400 "API_ERROR" "Group ID is required" none
    ∧ "Group ID is required" ≠ "Invalid request body" :=
  ⟨⟨"invalid JSON", rfl⟩, rfl, by decide⟩

/-- C3 amended: for every CreateGroup invocation whose body fails JSON
decoding, and every UpdateGroup invocation whose body fails JSON
decoding and whose `groupID` is non-empty, the handler responds 400
"Invalid request body" and the service layer is not invoked
(UpdateGroup with an empty `groupID` instead answers 400 "Group ID is
required" without decoding the body; see C8). -/
theorem c3_invalid_body (h : Handler) (r : Request) :
    (∀ e, decodeCreateGroupRequest r.body = Except.error e →
       (Handler.CreateGroup h r).response =
         RespondError 400 "API_ERROR" "Invalid request body" none
       ∧ (Handler.CreateGroup h r).svcCall = none)
    ∧ (∀ e, r.groupID ≠ "" → decodeUpdateGroupRequest r.body = Except.error e →
       (Handler.UpdateGroup h r).response =
         RespondError 400 "API_ERROR" "Invalid request body" none
       ∧ (Handler.UpdateGroup h r).svcCall = none) := by
  constructor
  · intro e hdec
    simp [Handler.CreateGroup, hdec, Handler.respondWithError]
  · intro e hne hdec
    simp [Handler.UpdateGroup, hne, hdec, Handler.respondWithError]

/-- C3 witness: a CreateGroup invocation with a malformed body answers
400 "Invalid request body" and performs no service call. -/
theorem c3_invalid_body_witness :
    (Handler.CreateGroup hOk rBadBody).response =
      RespondError 400 "API_ERROR" "Invalid request body" none
    ∧ (Handler.CreateGroup hOk rBadBody).svcCall = none :=
  (c3_invalid_body hOk rBadBody).1 "invalid JSON" rfl

/-- C4: GetGroup, UpdateGroup, DeleteGroup and GetGroupMembers with an
empty `groupID` answer 400, message "Group ID is required", with a null
details payload, and the service layer is not invoked. -/
theorem c4_empty_group_id (h : Handler) (r : Request) (hid : r.groupID = "") :
    ((Handler.GetGroup h r).response =
        RespondError 400 "API_ERROR" "Group ID is required" none
      ∧ (Handler.GetGroup h r).svcCall = none)
    ∧ ((Handler.UpdateGroup h r).response =
        RespondError 400 "API_ERROR" "Group ID is required" none
      ∧ (Handler.UpdateGroup h r).svcCall = none)
    ∧ ((Handler.DeleteGroup h r).response =
        RespondError 400 "API_ERROR" "Group ID is required" none
      ∧ (Handler.DeleteGroup h r).svcCall = none)
    ∧ ((Handler.GetGroupMembers h r).response =
        RespondError 400 "API_ERROR" "Group ID is required" none
      ∧ (Handler.GetGroupMembers h r).svcCall = none) := by
  refine ⟨⟨?_, ?_⟩, ⟨?_, ?_⟩, ⟨?_, ?_⟩, ⟨?_, ?_⟩⟩ <;>
    simp [Handler.GetGroup, Handler.UpdateGroup, Handler.DeleteGroup,
      Handler.GetGroupMembers, hid, Handler.respondWithError]

/-- C4 witness: the spec scenario `GET /groups/` with an empty
`groupID` answers 400 "Group ID is required" without a service call. -/
theorem c4_empty_group_id_witness :
    (Handler.GetGroup hOk rNoIdBadBody).response =
      RespondError 400 "API_ERROR" "Group ID is required" none
    ∧ (Handler.GetGroup hOk rNoIdBadBody).svcCall = none :=
  (c4_empty_group_id hOk rNoIdBadBody rfl).1

/-- C5: AddUserToGroup and RemoveUserFromGroup with an empty `groupID`,
an empty `userID`, or both, answer 400 "Both Group ID and User ID are
required" and the service layer is not invoked. -/
theorem c5_empty_membership_ids (h : Handler) (r : Request)
    (hid : r.groupID = "" ∨ r.userID = "") :
    ((Handler.AddUserToGroup h r).response =
        RespondError 400 "API_ERROR" "Both Group ID and User ID are required" none
      ∧ (Handler.AddUserToGroup h r).svcCall = none)
    ∧ ((Handler.RemoveUserFromGroup h r).response =
        RespondError 400 "API_ERROR" "Both Group ID and User ID are required" none
      ∧ (Handler.RemoveUserFromGroup h r).svcCall = none) := by
  refine ⟨⟨?_, ?_⟩, ⟨?_, ?_⟩⟩ <;>
    simp [Handler.AddUserToGroup, Handler.RemoveUserFromGroup, hid,
      Handler.respondWithError]

/-- C5 witness: the spec scenario `PUT /groups/g1/members/` with an
empty `userID` answers 400 "Both Group ID and User ID are required"
without a service call. -/
theorem c5_empty_membership_ids_witness :
    (Handler.AddUserToGroup hOk
        { groupID := "g1", userID := "", body := Body.malformed }).response =
      RespondError 400 "API_ERROR" "Both Group ID and User ID are required" none
    ∧ (Handler.AddUserToGroup hOk
        { groupID := "g1", userID := "", body := Body.malformed }).svcCall = none :=
  (c5_empty_membership_ids hOk
    { groupID := "g1", userID := "", body := Body.malformed } (Or.inr rfl)).1

/-- C6: every error envelope produced by any of the eight operations —
400 client errors and 500 service errors alike — carries code
`"API_ERROR"` and `nil` details (all error paths go through
`respondWithError`). -/
theorem c6_error_envelope_fields (h : Handler) (r : Request) :
    (∀ s c m d, (Handler.CreateGroup h r).response.envelope = Envelope.error s c m d →
       c = "API_ERROR" ∧ d = none)
    ∧ (∀ s c m d, (Handler.GetGroups h r).response.envelope = Envelope.error s c m d →
       c = "API_ERROR" ∧ d = none)
    ∧ (∀ s c m d, (Handler.GetGroup h r).response.envelope = Envelope.error s c m d →
       c = "API_ERROR" ∧ d = none)
    ∧ (∀ s c m d, (Handler.UpdateGroup h r).response.envelope = Envelope.error s c m d →
       c = "API_ERROR" ∧ d = none)
    ∧ (∀ s c m d, (Handler.DeleteGroup h r).response.envelope = Envelope.error s c m d →
       c = "API_ERROR" ∧ d = none)
    ∧ (∀ s c m d, (Handler.GetGroupMembers h r).response.envelope = Envelope.error s c m d →
       c = "API_ERROR" ∧ d = none)
    ∧ (∀ s c m d, (Handler.AddUserToGroup h r).response.envelope = Envelope.error s c m d →
       c = "API_ERROR" ∧ d = none)
    ∧ (∀ s c m d, (Handler.RemoveUserFromGroup h r).response.envelope = Envelope.error s c m d →
       c = "API_ERROR" ∧ d = none) := by
  refine ⟨?_, ?_, ?_, ?_, ?_, ?_, ?_, ?_⟩ <;>
  · intro s c m d henv
    simp only [Handler.CreateGroup, Handler.GetGroups, Handler.GetGroup,
      Handler.UpdateGroup, Handler.DeleteGroup, Handler.GetGroupMembers,
      Handler.AddUserToGroup, Handler.RemoveUserFromGroup,
      Handler.respondWithError, RespondError, RespondSuccess] at henv
    repeat' split at henv
    all_goals simp_all

/-- C6 witness: a failing GetGroups run produces an error envelope, and
the theorem instantiated there yields code `"API_ERROR"` and no
details. -/
theorem c6_error_envelope_fields_witness :
    "API_ERROR" = "API_ERROR" ∧ (none : Option String) = none :=
  (c6_error_envelope_fields hErrA rEng).2.1 "error" "API_ERROR"
    "Failed to retrieve groups" none rfl

/-- C7: for each operation, two runs on the same request in which the
service call fails — with possibly different error values — write the
same HTTP response: the response depends only on the operation, never
on the content of the service error. -/
theorem c7_error_content_independence (h₁ h₂ : Handler) (r : Request) :
    (∀ req e₁ e₂, decodeCreateGroupRequest r.body = Except.ok req →
       h₁.groupsSvc.createGroup req = Except.error e₁ →
       h₂.groupsSvc.createGroup req = Except.error e₂ →
       (Handler.CreateGroup h₁ r).response = (Handler.CreateGroup h₂ r).response)
    ∧ (∀ e₁ e₂, h₁.groupsSvc.getGroups = Except.error e₁ →
       h₂.groupsSvc.getGroups = Except.error e₂ →
       (Handler.GetGroups h₁ r).response = (Handler.GetGroups h₂ r).response)
    ∧ (∀ e₁ e₂, r.groupID ≠ "" →
       h₁.groupsSvc.getGroup r.groupID = Except.error e₁ →
       h₂.groupsSvc.getGroup r.groupID = Except.error e₂ →
       (Handler.GetGroup h₁ r).response = (Handler.GetGroup h₂ r).response)
    ∧ (∀ req e₁ e₂, r.groupID ≠ "" →
       decodeUpdateGroupRequest r.body = Except.ok req →
       h₁.groupsSvc.updateGroup r.groupID req = Except.error e₁ →
       h₂.groupsSvc.updateGroup r.groupID req = Except.error e₂ →
       (Handler.UpdateGroup h₁ r).response = (Handler.UpdateGroup h₂ r).response)
    ∧ (∀ e₁ e₂, r.groupID ≠ "" →
       h₁.groupsSvc.deleteGroup r.groupID = Except.error e₁ →
       h₂.groupsSvc.deleteGroup r.groupID = Except.error e₂ →
       (Handler.DeleteGroup h₁ r).response = (Handler.DeleteGroup h₂ r).response)
    ∧ (∀ e₁ e₂, r.groupID ≠ "" →
       h₁.groupsSvc.getGroupMembers r.groupID = Except.error e₁ →
       h₂.groupsSvc.getGroupMembers r.groupID = Except.error e₂ →
       (Handler.GetGroupMembers h₁ r).response = (Handler.GetGroupMembers h₂ r).response)
    ∧ (∀ e₁ e₂, r.groupID ≠ "" → r.userID ≠ "" →
       h₁.groupsSvc.addUserToGroup r.groupID r.userID = Except.error e₁ →
       h₂.groupsSvc.addUserToGroup r.groupID r.userID = Except.error e₂ →
       (Handler.AddUserToGroup h₁ r).response = (Handler.AddUserToGroup h₂ r).response)
    ∧ (∀ e₁ e₂, r.groupID ≠ "" → r.userID ≠ "" →
       h₁.groupsSvc.removeUserFromGroup r.groupID r.userID = Except.error e₁ →
       h₂.groupsSvc.removeUserFromGroup r.groupID r.userID = Except.error e₂ →
       (Handler.RemoveUserFromGroup h₁ r).response =
         (Handler.RemoveUserFromGroup h₂ r).response) := by
  refine ⟨?_, ?_, ?_, ?_, ?_, ?_, ?_, ?_⟩
  · intro req e₁ e₂ hdec hsvc₁ hsvc₂
    simp [Handler.CreateGroup, hdec, hsvc₁, hsvc₂]
  · intro e₁ e₂ hsvc₁ hsvc₂
    simp [Handler.GetGroups, hsvc₁, hsvc₂]
  · intro e₁ e₂ hne hsvc₁ hsvc₂
    simp [Handler.GetGroup, hne, hsvc₁, hsvc₂]
  · intro req e₁ e₂ hne hdec hsvc₁ hsvc₂
    simp [Handler.UpdateGroup, hne, hdec, hsvc₁, hsvc₂]
  · intro e₁ e₂ hne hsvc₁ hsvc₂
    simp [Handler.DeleteGroup, hne, hsvc₁, hsvc₂]
  · intro e₁ e₂ hne hsvc₁ hsvc₂
    simp [Handler.GetGroupMembers, hne, hsvc₁, hsvc₂]
  · intro e₁ e₂ hg hu hsvc₁ hsvc₂
    simp [Handler.AddUserToGroup, hg, hu, hsvc₁, hsvc₂]
  · intro e₁ e₂ hg hu hsvc₁ hsvc₂
    simp [Handler.RemoveUserFromGroup, hg, hu, hsvc₁, hsvc₂]

/-- C7 witness: DeleteGroup runs against two services failing with
different error messages write the same response. -/
theorem c7_error_content_independence_witness :
    (Handler.DeleteGroup hErrA rEng).response =
      (Handler.DeleteGroup hErrB rEng).response :=
  (c7_error_content_independence hErrA hErrB rEng).2.2.2.2.1
    "okta: connection refused" "group already exists" (by decide) rfl rfl

/-- C8: in UpdateGroup the `groupID` presence check precedes body
decoding: with an empty `groupID` the response is 400 "Group ID is
required" whatever the body holds and the body is never decoded, and
the body is decoded exactly when `groupID` is non-empty. -/
theorem c8_update_group_id_check_first (h : Handler) (r : Request) :
    (r.groupID = "" →
       (Handler.UpdateGroup h r).response =
         RespondError 400 "API_ERROR" "Group ID is required" none
       ∧ (Handler.UpdateGroup h r).bodyDecoded = false)
    ∧ ((Handler.UpdateGroup h r).bodyDecoded = true ↔ r.groupID ≠ "") := by
  constructor
  · intro hid
    simp [Handler.UpdateGroup, hid, Handler.respondWithError]
  · by_cases hid : r.groupID = ""
    · simp [Handler.UpdateGroup, hid]
    · simp only [Handler.UpdateGroup, ne_eq, hid, not_false_iff, iff_true]
      repeat' split
      all_goals simp_all

/-- C8 witness: an UpdateGroup run with empty `groupID` and a malformed
body answers 400 "Group ID is required" and never decodes the body. -/
theorem c8_update_group_id_check_first_witness :
    (Handler.UpdateGroup hOk rNoIdBadBody).response =
      RespondError 400 "API_ERROR" "Group ID is required" none
    ∧ (Handler.UpdateGroup hOk rNoIdBadBody).bodyDecoded = false :=
  (c8_update_group_id_check_first hOk rNoIdBadBody).1 rfl

/-- Each invocation returns the handler state unchanged: CreateGroup. -/
theorem postState_CreateGroup (h : Handler) (r : Request) :
    (Handler.CreateGroup h r).postState = h := by
  unfold Handler.CreateGroup
  repeat' split
  all_goals rfl

/-- Each invocation returns the handler state unchanged: GetGroups. -/
theorem postState_GetGroups (h : Handler) (r : Request) :
    (Handler.GetGroups h r).postState = h := by
  unfold Handler.GetGroups
  repeat' split
  all_goals rfl

/-- Each invocation returns the handler state unchanged: GetGroup. -/
theorem postState_GetGroup (h : Handler) (r : Request) :
    (Handler.GetGroup h r).postState = h := by
  unfold Handler.GetGroup
  repeat' split
  all_goals rfl

/-- Each invocation returns the handler state unchanged: UpdateGroup. -/
theorem postState_UpdateGroup (h : Handler) (r : Request) :
    (Handler.UpdateGroup h r).postState = h := by
  unfold Handler.UpdateGroup
  repeat' split
  all_goals rfl

/-- Each invocation returns the handler state unchanged: DeleteGroup. -/
theorem postState_DeleteGroup (h : Handler) (r : Request) :
    (Handler.DeleteGroup h r).postState = h := by
  unfold Handler.DeleteGroup
  repeat' split
  all_goals rfl

/-- Each invocation returns the handler state unchanged: GetGroupMembers. -/
theorem postState_GetGroupMembers (h : Handler) (r : Request) :
    (Handler.GetGroupMembers h r).postState = h := by
  unfold Handler.GetGroupMembers
  repeat' split
  all_goals rfl

/-- Each invocation returns the handler state unchanged: AddUserToGroup. -/
theorem postState_AddUserToGroup (h : Handler) (r : Request) :
    (Handler.AddUserToGroup h r).postState = h := by
  unfold Handler.AddUserToGroup
  repeat' split
  all_goals rfl

/-- Each invocation returns the handler state unchanged:
RemoveUserFromGroup. -/
theorem postState_RemoveUserFromGroup (h : Handler) (r : Request) :
    (Handler.RemoveUserFromGroup h r).postState = h := by
  unfold Handler.RemoveUserFromGroup
  repeat' split
  all_goals rfl

/-- C9: every one of the eight operations leaves the handler's state
(its `log` and `groupsSvc` fields) unchanged; consequently an
invocation run after any earlier invocation behaves exactly as it would
on the fresh handler, so invocations are stateless and independent. -/
theorem c9_handler_stateless (h : Handler) (r r₂ : Request) :
    (Handler.CreateGroup h r).postState = h
    ∧ (Handler.GetGroups h r).postState = h
    ∧ (Handler.GetGroup h r).postState = h
    ∧ (Handler.UpdateGroup h r).postState = h
    ∧ (Handler.DeleteGroup h r).postState = h
    ∧ (Handler.GetGroupMembers h r).postState = h
    ∧ (Handler.AddUserToGroup h r).postState = h
    ∧ (Handler.RemoveUserFromGroup h r).postState = h
    ∧ Handler.GetGroup ((Handler.CreateGroup h r).postState) r₂ =
        Handler.GetGroup h r₂
    ∧ Handler.CreateGroup ((Handler.DeleteGroup h r).postState) r₂ =
        Handler.CreateGroup h r₂ := by
  refine ⟨postState_CreateGroup h r, postState_GetGroups h r, postState_GetGroup h r,
    postState_UpdateGroup h r, postState_DeleteGroup h r, postState_GetGroupMembers h r,
    postState_AddUserToGroup h r, postState_RemoveUserFromGroup h r, ?_, ?_⟩
  · rw [postState_CreateGroup]
  · rw [postState_DeleteGroup]

/-- C10 counterexample: the body `42` is a syntactically valid JSON
value, yet decoding it into `CreateGroupRequest` fails (Go refuses a
non-object top-level value for a struct target), so CreateGroup answers
400 "Invalid request body" without invoking the service — refuting the
claim that decoding succeeds on every syntactically valid JSON body. -/
theorem c10_counterexample :
    rNum.body = Body.json (Json.num 42)
    ∧ (∃ e, decodeCreateGroupRequest rNum.body = Except.error e)
    ∧ (Handler.CreateGroup hOk rNum).response =
        RespondError 400 "API_ERROR" "Invalid request body" none
    ∧ (Handler.CreateGroup hOk rNum).svcCall = none :=
  ⟨rfl, ⟨"cannot unmarshal value into struct", rfl⟩, rfl, rfl⟩

/-- C10 amended: CreateGroup and UpdateGroup perform no presence check
on the decoded body's fields. Decoding succeeds on JSON object bodies
whose fields matching the key `name` (case-insensitively, as Go
matches struct keys) hold a string or `null` — in particular on the
empty object and on a `null` name, both of which yield an empty Name —
and the decoded struct is forwarded to the service as-is; the 400
"Invalid request body" response is produced exactly when Go JSON
decoding fails (syntactically invalid bytes, a top-level value that is
neither an object nor `null`, or a name-matching field holding a value
that is neither a string nor `null`), never for a missing, empty, or
`null` Name. -/
theorem c10_no_presence_check (h : Handler) (r : Request) :
    decodeCreateGroupRequest (Body.json (Json.obj [])) = Except.ok { name := "" }
    ∧ (∀ s, decodeCreateGroupRequest (Body.json (Json.obj [("name", Json.str s)])) =
        Except.ok { name := s })
    ∧ decodeUpdateGroupRequest (Body.json (Json.obj [])) = Except.ok { name := "" }
    ∧ (∀ s, decodeUpdateGroupRequest (Body.json (Json.obj [("name", Json.str s)])) =
        Except.ok { name := s })
    ∧ decodeCreateGroupRequest (Body.json (Json.obj [("name", Json.null)])) =
        Except.ok { name := "" }
    ∧ (∃ e, decodeCreateGroupRequest (Body.json (Json.obj [("Name", Json.num 42)])) =
        Except.error e)
    ∧ (∀ req, decodeCreateGroupRequest r.body = Except.ok req →
        (Handler.CreateGroup h r).svcCall = some (SvcCall.createGroup req))
    ∧ (∀ req, r.groupID ≠ "" → decodeUpdateGroupRequest r.body = Except.ok req →
        (Handler.UpdateGroup h r).svcCall = some (SvcCall.updateGroup r.groupID req))
    ∧ ((Handler.CreateGroup h r).response =
          RespondError 400 "API_ERROR" "Invalid request body" none ↔
        ∃ e, decodeCreateGroupRequest r.body = Except.error e) := by
  refine ⟨rfl, fun s => rfl, rfl, fun s => rfl, rfl,
    ⟨"cannot unmarshal value into field of type string", rfl⟩, ?_, ?_, ?_⟩
  · intro req hdec
    simp only [Handler.CreateGroup, hdec]
    split <;> rfl
  · intro req hne hdec
    simp only [Handler.UpdateGroup, if_neg hne, hdec]
    split <;> rfl
  · rcases hdec : decodeCreateGroupRequest r.body with e | req
    · constructor
      · intro _
        exact ⟨e, rfl⟩
      · intro _
        simp [Handler.CreateGroup, hdec, Handler.respondWithError]
    · constructor
      · intro hresp
        exfalso
        rcases hsvc : h.groupsSvc.createGroup req with e₂ | g
        · simp [Handler.CreateGroup, hdec, hsvc, Handler.respondWithError,
            RespondError] at hresp
        · simp [Handler.CreateGroup, hdec, hsvc, RespondSuccess, RespondError] at hresp
      · rintro ⟨e, he⟩
        simp at he

/-- C10 witness: the empty-object body decodes to an empty Name and is
forwarded to the (failing) service unchanged — no presence check. -/
theorem c10_no_presence_check_witness :
    (Handler.CreateGroup hErrA
        { groupID := "g1", userID := "u1", body := Body.json (Json.obj []) }).svcCall =
      some (SvcCall.createGroup { name := "" }) :=
  (c10_no_presence_check hErrA
    { groupID := "g1", userID := "u1", body := Body.json (Json.obj []) }).2.2.2.2.2.2.1
    { name := "" } rfl

end GroupApi
